import Mathlib

/-!
# restutilsgo: request pipeline, fault recovery and response envelopes

A shallow embedding of `http.go`, `server.go` and `servercontext.go`.

* Go's `panic` is explicit: a function that may panic returns an `Outcome`,
  either `ret a` (normal return) or `panic f` with the raised value `f`.
* The response writer is explicit state: the list of bodies written so far.
* Calls into middleware and handlers are recorded in a trace of `Event`s.
* Machine integers are `Nat`/`Int` with explicit bounds (`uint64` wraps modulo `2^64`).
-/

set_option autoImplicit false

namespace Restutilsgo

/-! ## Go runtime values -/

/-- Result classification of an envelope (`gocommon.ValidResultType`). -/
inductive ValidResultType where
  | Success
  | Error
  deriving DecidableEq, Repr

/-- The structured HTTP error of the helper library (`gocommon.HTTPError`): a status code
and a message. -/
structure HTTPError where
  Code : Int
  Message : String
  deriving DecidableEq, Repr

/-- A non-nil value of Go's `error` interface, by dynamic type: a `*gocommon.HTTPError`
(the only structured shape `authenticatedFunction` tests for), or any other error, kept
as the text its `Error()` method returns. -/
inductive GoError where
  | httpErrorPtr (e : HTTPError)
  | other (text : String)
  deriving DecidableEq, Repr

/-- The text of `err.Error()`, which is also what `%v` prints for an error. Modelled
from the spec for the first case: `Error()` of a `*gocommon.HTTPError` belongs to the
helper library, not to this repository, and is taken to be the message it carries. -/
def GoError.Error : GoError → String
  | .httpErrorPtr e => e.Message
  | .other text => text

/-- A value given to `panic`, by the runtime shapes the type switch of
`ProtectionHandler` distinguishes, in its order: a plain string, a `gocommon.HTTPError`
by value, a `*gocommon.HTTPError`, any other `error`, and any other value (an `int`,
a struct, ...). -/
inductive Fault where
  | str (s : String)
  | httpError (e : HTTPError)
  | httpErrorPtr (e : HTTPError)
  | error (text : String)
  | other (descr : String)
  deriving DecidableEq, Repr

/-- The outcome of running Go code that may panic. -/
inductive Outcome (α : Type) where
  | ret (a : α)
  | panic (f : Fault)
  deriving Repr

/-- The run-time panic Go raises when a nil pointer or nil interface is dereferenced;
it is a `runtime.Error`, hence of `error` shape. -/
def nilPointerDereference : Fault :=
  .error "runtime error: invalid memory address or nil pointer dereference"

/-! ## reflect: the runtime shape of a payload -/

/-- Element types of a sequence, as far as `sendJSON` can tell them apart. -/
inductive ElemType where
  | uint8
  | other (name : String)
  deriving DecidableEq, Repr

/-- A `reflect.Value`. `invalid` is the zero Value (of a nil interface, or `Elem()` of a
nil pointer). A slice or array carries the name of its defined type (`none` for an
unnamed type such as `[]byte` or `[3]int`), its element type and its length. Pointer
chains are finite. -/
inductive Value where
  | invalid
  | scalar (typeName : String)
  | slice (defined : Option String) (elem : ElemType) (len : Nat)
  | array (defined : Option String) (elem : ElemType) (len : Nat)
  | ptr (elem : Value)
  deriving DecidableEq, Repr

/-- The kinds `sendJSON` compares against (`reflect.Kind`); every other kind is `Other`. -/
inductive Kind where
  | Invalid
  | Ptr
  | Array
  | Slice
  | Other
  deriving DecidableEq, Repr

/-- The method `rv.Kind()`. -/
def Value.Kind : Value → Kind
  | .invalid => .Invalid
  | .scalar _ => .Other
  | .slice _ _ _ => .Slice
  | .array _ _ _ => .Array
  | .ptr _ => .Ptr

/-- The method `rv.Elem()` of a pointer. -/
def Value.Elem : Value → Value
  | .ptr v => v
  | v => v

/-- The method `rv.Len()` of an array or slice. -/
def Value.Len : Value → Nat
  | .slice _ _ n => n
  | .array _ _ n => n
  | _ => 0

/-- The type assertion `rv.Interface().([]byte)`: it succeeds exactly when the dynamic
type is identical to `[]byte`, the unnamed slice of `uint8`. -/
def Value.isByteSlice : Value → Bool
  | .slice none .uint8 _ => true
  | _ => false

/-- The loop `for rv.Kind() == reflect.Ptr { rv = rv.Elem() }`. -/
def Value.deref : Value → Value
  | .ptr v => v.deref
  | v => v

/-! ## Envelope, response writer, request -/

/-- The response envelope `gocommon.ResultType[T]`; `Data` and `Count` are pointers in
Go, `none` is nil. The last field is the source's `res.String`, which the spec (3) calls
the raw message string: the rendered error text kept for logging. -/
structure ResultType where
  StatusCode : Int
  Data : Option Value
  Message : String
  Count : Option Nat
  Result : ValidResultType
  Stack : String
  String : String
  deriving DecidableEq, Repr

/-- One `w.Write` on the response: the JSON of an envelope (kept as the envelope that
was marshalled) or raw bytes; `raw ""` is a write of nil bytes. -/
inductive Body where
  | envelope (res : ResultType)
  | raw (bytes : String)
  deriving DecidableEq, Repr

/-- The state of an `http.ResponseWriter`: headers set and bodies written, in order. -/
structure ResponseWriter where
  Header : List (String × String)
  writes : List Body
  deriving DecidableEq, Repr

/-- The call `w.Header().Set(key, value)`. -/
def ResponseWriter.SetHeader (w : ResponseWriter) (key value : String) : ResponseWriter :=
  { w with Header := (key, value) :: w.Header.filter (fun kv => kv.1 != key) }

/-- The call `w.Write(b)`. -/
def ResponseWriter.Write (w : ResponseWriter) (b : Body) : ResponseWriter :=
  { w with writes := w.writes ++ [b] }

/-- Parsed query values, `url.Values` (`map[string][]string`), as an association list. -/
abbrev Values := List (String × List String)

/-- The method `url.Values.Get`: the first value stored under the key, or the empty string. -/
def Values.Get (v : Values) (key : String) : String :=
  match v.lookup key with
  | some (value :: _) => value
  | _ => ""

/-- An `*http.Request`, as far as this package reads it: the body (`none` when
`r.Body == nil`) and the parsed query `r.URL.Query()`. -/
structure Request where
  Body : Option String
  Query : Values
  deriving DecidableEq, Repr

/-! ## The helper library `gocommon` -/

/-- Modelled from the spec: `gocommon.HTTPError.ToResultType` belongs to the helper library, not to this repository. The spec
(4.3, 4.4) has the structured HTTP-error's status code and message carried verbatim into
an envelope with `result = Error`; the rendered error text is taken to be the message.
What the helper itself stores in `Stack` is not described; it is taken empty. -/
def HTTPError.ToResultType (e : HTTPError) : ResultType :=
  { StatusCode := e.Code, Data := none, Message := e.Message, Count := none,
    Result := .Error, Stack := "", String := e.Message }

/-- Modelled from the spec: `gocommon.ResultType.Send` belongs to the helper library, not to this repository. The envelope is
serialized as it stands at the time of the call and written to the response. -/
def ResultType.Send (res : ResultType) (w : ResponseWriter) : ResponseWriter :=
  (w.SetHeader "Content-Type" "application/json").Write (.envelope res)

/-- Modelled from the spec: `gocommon.SendErrorString` belongs to the helper library, not to this repository. The spec (4.3,
rule 1) has a plain string treated as a generic server-fault message with status 500;
the helper returns the envelope it sent. -/
def SendErrorString (w : ResponseWriter) (s : String) : ResponseWriter × ResultType :=
  let res : ResultType :=
    { StatusCode := 500, Data := none, Message := s, Count := none,
      Result := .Error, Stack := "", String := s }
  (res.Send w, res)

/-- Modelled from the spec: `gocommon.SendError` belongs to the helper library, not to this repository. The spec (4.3 rule 3,
4.4) has any other error sent as a generic server-fault envelope with status 500. -/
def SendError (w : ResponseWriter) (err : GoError) : ResponseWriter :=
  (SendErrorString w err.Error).1

/-- Modelled from the spec: `gocommon.PanicBadRequestf` belongs to the helper library, not to this repository. The spec (4.2)
has decode failures raised through the fault-recovery channel as client-faults that
become a bad-request structured error; the argument is the formatted message. -/
def PanicBadRequestf (msg : String) : Fault :=
  .httpError { Code := 400, Message := msg }

/-- Modelled from the spec: `gocommon.PanicServerErrorf` belongs to the helper library, not to this repository. The spec (4.5)
has a middleware failure raised as a server-fault that becomes a status-500 envelope;
the argument is the formatted message. -/
def PanicServerErrorf (msg : String) : Fault :=
  .httpError { Code := 500, Message := msg }

/-- Whether a fault is a client-fault: a structured HTTP error with status 400. -/
def Fault.isBadRequest : Fault → Bool
  | .httpError e => e.Code == 400
  | .httpErrorPtr e => e.Code == 400
  | _ => false

/-! ## strconv (Go standard library) -/

/-- The two errors of `strconv`. -/
inductive NumError where
  | ErrSyntax
  | ErrRange
  deriving DecidableEq, Repr

/-- The helper `lower` of `strconv`: `c | ('x' - 'X')`. -/
def lower (c : Nat) : Nat := c ||| 0x20

/-- The digit loop of `strconv.ParseUint` for an explicit base `2..36`, over the bytes
left to read, with the accumulator `n` (a `uint64`). -/
def parseUintLoop (base cutoff maxVal : Nat) : List Nat → Nat → Nat × Option NumError
  | [], n => (n, none)
  | c :: cs, n =>
    let d? : Option Nat :=
      if 48 ≤ c ∧ c ≤ 57 then some (c - 48)
      else if 97 ≤ lower c ∧ lower c ≤ 122 then some (lower c - 97 + 10)
      else none
    match d? with
    | none => (0, some .ErrSyntax)
    | some d =>
      if d ≥ base then (0, some .ErrSyntax)
      else if n ≥ cutoff then (maxVal, some .ErrRange)
      else
        let n0 := (n * base) % 2 ^ 64
        let n1 := (n0 + d) % 2 ^ 64
        if n1 < n0 ∨ n1 > maxVal then (maxVal, some .ErrRange)
        else parseUintLoop base cutoff maxVal cs n1

/-- The UTF-8 encoding of one code point. -/
def utf8Bytes (c : Nat) : List Nat :=
  if c < 0x80 then [c]
  else if c < 0x800 then [0xC0 + c / 0x40, 0x80 + c % 0x40]
  else if c < 0x10000 then [0xE0 + c / 0x1000, 0x80 + c / 0x40 % 0x40, 0x80 + c % 0x40]
  else [0xF0 + c / 0x40000, 0x80 + c / 0x1000 % 0x40, 0x80 + c / 0x40 % 0x40, 0x80 + c % 0x40]

/-- The bytes of a Go string (Go strings are byte sequences, UTF-8 for text). -/
def goBytes (s : String) : List Nat := s.data.flatMap (fun c => utf8Bytes c.toNat)

/-- The function `strconv.ParseUint(s, base, bitSize)` for an explicit base `2..36` and a bit size
`1..64`, on the bytes of `s`. -/
def ParseUint (s : List Nat) (base bitSize : Nat) : Nat × Option NumError :=
  if s = [] then (0, some .ErrSyntax)
  else
    let cutoff := (2 ^ 64 - 1) / base + 1
    let maxVal := 2 ^ bitSize - 1
    parseUintLoop base cutoff maxVal s 0

/-- The function `strconv.ParseInt(s, base, bitSize)` for an explicit base `2..36` and a bit size
`1..64`, on the bytes of `s`: pick off a leading sign (`+` is 43, `-` is 45), convert
unsigned, check the range. A syntax error returns 0; a range error returns the
largest-magnitude value of the sign. -/
def ParseInt (s : List Nat) (base bitSize : Nat) : Int × Option NumError :=
  match s with
  | [] => (0, some .ErrSyntax)
  | c :: rest =>
    let neg := c = 45
    let s1 := if c = 43 ∨ c = 45 then rest else s
    match ParseUint s1 base bitSize with
    | (_, some .ErrSyntax) => (0, some .ErrSyntax)
    | (un, _) =>
      let cutoff := 2 ^ (bitSize - 1)
      if ¬ neg ∧ un ≥ cutoff then ((cutoff : Int) - 1, some .ErrRange)
      else if neg ∧ un > cutoff then (-(cutoff : Int), some .ErrRange)
      else (if neg then -(un : Int) else (un : Int), none)

/-! ## http.go -/

/-- ParseID parses a 64-bit integer, and returns zero on failure (the source's comment):
`id, _ := strconv.ParseInt(s, 10, 64); return id`. -/
def ParseID (s : String) : Int := (ParseInt (goBytes s) 10 64).1

/-- What `readJSON` did to the request body and the destination, in order. -/
inductive ReadEvent where
  | Decode
  | Validate
  | Close
  deriving DecidableEq, Repr

/-- The function `readJSON`: the body of the request is decoded into the destination and,
when the destination implements `Validator`, validated. `decode` is `json.Decoder.Decode`
into the destination type (the error text on failure); `validate` is the destination's
`Validate` method when it has one. The deferred `r.Body.Close()` is registered after the
nil check and runs last. -/
def readJSON {α : Type} (r : Request) (decode : String → Except String α)
    (validate : Option (α → Option String)) : List ReadEvent × Outcome α :=
  match r.Body with
  | none => ([], .panic (PanicBadRequestf "(readJSON) Request body is empty"))
  | some body =>
    match decode body with
    | .error err =>
      ([.Decode, .Close], .panic (PanicBadRequestf ("(readJSON) Failed to decode JSON - " ++ err)))
    | .ok obj =>
      match validate with
      | none => ([.Decode, .Close], .ret obj)
      | some v =>
        match v obj with
        | some err =>
          ([.Decode, .Validate, .Close],
            .panic (PanicBadRequestf ("ReadJSON failed: Failed to validate dto data - " ++ err)))
        | none => ([.Decode, .Validate, .Close], .ret obj)

/-- The function `readProtoJSON`: `ioutil.ReadAll(r.Body)` then `protojson.Unmarshal`,
each failure raised with `gocommon.Panic(err)`. There is no nil check: `ReadAll` calls
`Read` on the body, which for a nil body is a nil interface and raises Go's
nil-dereference run-time panic. `Panic` is `gocommon.Panic`, `readAll` is reading the
body to its end, `unmarshal` is `protojson.Unmarshal` into the destination type. -/
def readProtoJSON {α : Type} (r : Request) (Panic : GoError → Fault)
    (readAll : String → Except GoError String) (unmarshal : String → Except GoError α) :
    Outcome α :=
  match r.Body with
  | none => .panic nilPointerDereference
  | some body =>
    match readAll body with
    | .error err => .panic (Panic err)
    | .ok bodyBytes =>
      match unmarshal bodyBytes with
      | .error err => .panic (Panic err)
      | .ok obj => .ret obj

/-- The function `readQueryParameterAsString`: the first non-empty `Get` over the keys,
in order, or the empty string. -/
def readQueryParameterAsString (r : Request) : List String → String
  | [] => ""
  | key :: keys =>
    let value := r.Query.Get key
    if value ≠ "" then value else readQueryParameterAsString r keys

/-- The statement `b, _ := json.Marshal(x)` on an envelope, the error discarded: the
JSON of the envelope (kept as the envelope itself) when `encodable` says that the
envelope can be encoded, and nil bytes when it cannot (a NaN, a channel or a function
in the payload). -/
def jsonMarshal (encodable : ResultType → Bool) (x : ResultType) : Body :=
  if encodable x then .envelope x else .raw ""

/-- The function `sendJSON`: a success envelope around `obj`, with `Count` set when the
payload, after following pointers, is an array or slice that is not a `[]byte`; the
envelope is marshalled with the error discarded and the bytes are written. Returns the
writer, the envelope `x` built in memory, and the bytes `b` written and returned. -/
def sendJSON (encodable : ResultType → Bool) (w : ResponseWriter) (obj : Value) :
    ResponseWriter × ResultType × Body :=
  let w := w.SetHeader "Content-Type" "application/json"
  let x : ResultType :=
    { StatusCode := 200, Data := some obj, Message := "", Count := none,
      Result := .Success, Stack := "", String := "" }
  let rv := obj.deref
  let x :=
    if rv.Kind = .Array ∨ rv.Kind = .Slice then
      if ¬ rv.isByteSlice then { x with Count := some rv.Len } else x
    else x
  let b := jsonMarshal encodable x
  (w.Write b, x, b)

/-- The function `sendBytes`: the bytes as a text/plain response, no envelope. -/
def sendBytes (w : ResponseWriter) (bytes : String) : ResponseWriter :=
  (w.SetHeader "Content-Type" "text/plain").Write (.raw bytes)

/-- The function `sendOK`: the empty success envelope, sent as `application/json` (the
source's comment says text/plain). An envelope without payload always marshals. -/
def sendOK (w : ResponseWriter) : ResponseWriter × ResultType :=
  let w := w.SetHeader "Content-Type" "application/json"
  let x : ResultType :=
    { StatusCode := 200, Data := none, Message := "", Count := none,
      Result := .Success, Stack := "", String := "" }
  (w.Write (.envelope x), x)

/-! ## server.go: credentials -/

def SYSTEM_USER_ID : Int := 0

def SYSTEM_CLIENT_NAME : String := "peopleflow"

def SYSTEM_USERNAME : String := "PEOPLEFLOW"

/-- The identity record `UserAccessCredentials`. -/
structure UserAccessCredentials where
  username : String
  userID : Int
  Roles : List String
  deriving DecidableEq, Repr

def UserAccessCredentials.GetUsername (x : UserAccessCredentials) : String := x.username

def UserAccessCredentials.GetUserID (x : UserAccessCredentials) : Int := x.userID

def NewUserAccessCredentials (username : String) (userID : Int) : UserAccessCredentials :=
  { username := username, userID := userID, Roles := [] }

def CreateSystemUserCredentials : UserAccessCredentials :=
  NewUserAccessCredentials SYSTEM_USERNAME SYSTEM_USER_ID

def UserAccessCredentials.IsSystemUser (x : UserAccessCredentials) : Bool :=
  x.username == SYSTEM_USERNAME && x.userID == SYSTEM_USER_ID

/-! ## servercontext.go -/

/-- One base-36 digit, `0-9` then `A-Z`. -/
def base36Char (d : Nat) : Char :=
  if d < 10 then Char.ofNat (48 + d) else Char.ofNat (55 + d)

/-- The digits of `n` in base 36, most significant first, in front of `ds`. -/
def base36Core : Nat → Nat → List Char → List Char
  | 0, _, ds => ds
  | fuel + 1, n, ds =>
    let ds := base36Char (n % 36) :: ds
    if n / 36 = 0 then ds else base36Core fuel (n / 36) ds

/-- The encoder `base36.Encode` of the external package. -/
def base36Encode (n : Nat) : String := String.mk (base36Core (n + 1) n [])

/-- The per-request context `httpServerContext`. The response writer is threaded as
state, and the logger is the log of the run. The field `pfx` is the source's
correlation prefix. -/
structure httpServerContext where
  pfx : String
  request : Request
  routerParams : List (String × String)
  timestamp : Nat
  deriving DecidableEq, Repr

/-- The constructor `newUnauthenticatedServerContext`; `now` is `time.Now().Unix()`. -/
def newUnauthenticatedServerContext (r : Request) (params : List (String × String))
    (now : Nat) : httpServerContext :=
  { pfx := base36Encode now, request := r, routerParams := params, timestamp := now }

/-- The authenticated context `authenticatedHTTPServerContext`: the unauthenticated one
plus the credentials. -/
structure authenticatedHTTPServerContext where
  UnauthenticatedHTTPServerContext : httpServerContext
  userCredentials : UserAccessCredentials
  deriving DecidableEq, Repr

/-- The constructor `newAuthenticatedServerContext`. -/
def newAuthenticatedServerContext (r : Request) (params : List (String × String))
    (user : UserAccessCredentials) (now : Nat) : authenticatedHTTPServerContext :=
  { UnauthenticatedHTTPServerContext := newUnauthenticatedServerContext r params now,
    userCredentials := user }

def authenticatedHTTPServerContext.UserCredentials (x : authenticatedHTTPServerContext) :
    UserAccessCredentials := x.userCredentials

def authenticatedHTTPServerContext.GetUserID (x : authenticatedHTTPServerContext) : Int :=
  x.UserCredentials.GetUserID

def authenticatedHTTPServerContext.GetUsername (x : authenticatedHTTPServerContext) : String :=
  x.UserCredentials.GetUsername

def authenticatedHTTPServerContext.IsSystemUser (x : authenticatedHTTPServerContext) : Bool :=
  x.UserCredentials.IsSystemUser

def httpServerContext.ReadQueryParameterAsString (x : httpServerContext)
    (keys : List String) : String :=
  readQueryParameterAsString x.request keys

/-- A line of the server log at error severity: `x.Error(err)` with the error's text, or
`x.Errorf(...)` with the formatted text. -/
inductive LogEntry where
  | Error (text : String)
  | Errorf (text : String)
  deriving DecidableEq, Repr

/-- What a call of `ProtectionHandler` leaves behind: the response writer, the final value
of its local `res` (`none` is the nil pointer), the lines logged, and the fault it raised
itself, if any. -/
structure Protection where
  w : ResponseWriter
  res : Option ResultType
  log : List LogEntry
  fault : Option Fault
  deriving DecidableEq, Repr

/-- The type switch of `ProtectionHandler` on the recovered value: the writer after the
case ran, and the local `res`. Only the string and the two `HTTPError` cases assign
`res`; the `error` case sends and leaves it nil; there is no default case. -/
def protectionSwitch (w : ResponseWriter) : Fault → ResponseWriter × Option ResultType
  | .str err =>
    let sent := SendErrorString w err
    (sent.1, some sent.2)
  | .httpError err =>
    let res := err.ToResultType
    (res.Send w, some res)
  | .httpErrorPtr err =>
    let res := err.ToResultType
    (res.Send w, some res)
  | .error err => (SendError w (.other err), none)
  | .other _ => (w, none)

/-- The method `ProtectionHandler`, run as a deferred call: `e` is what `recover()`
returns (`none` when the request did not panic), `stack` is `debug.Stack()`. After the
switch, `res.Stack = ...` dereferences `res`: with `res` nil this raises the
nil-dereference panic; otherwise the stack is stored in the envelope held in memory,
and `x.Errorf("[%v] %v", x.prefix, res.String)` logs the correlation prefix and the
envelope's `String` field. -/
def httpServerContext.ProtectionHandler (x : httpServerContext) (stack : String)
    (w : ResponseWriter) (e : Option Fault) : Protection :=
  match e with
  | none => { w := w, res := none, log := [], fault := none }
  | some e =>
    match protectionSwitch w e with
    | (w1, none) => { w := w1, res := none, log := [], fault := some nilPointerDereference }
    | (w1, some res) =>
      let res := { res with Stack := stack }
      { w := w1, res := some res, log := [.Errorf ("[" ++ x.pfx ++ "] " ++ res.String)],
        fault := none }

/-! ## server.go: the request adapters -/

/-- A middleware `MiddlewareFunc`: given the request it returns nil (`none`) or an error,
or panics. -/
abbrev MiddlewareFunc := Request → Outcome (Option GoError)

/-- The function behind an `AuthFunc` pointer: it returns the pair `(user, err)` of Go,
either of which may be nil, or panics. -/
abbrev AuthFn := Request → Outcome (Option UserAccessCredentials × Option GoError)

/-- A handler, seen from the adapter: given the context, it acts on the response writer
and returns, or panics with a fault. -/
abbrev Handler (C : Type) := C → ResponseWriter → ResponseWriter × Option Fault

abbrev UnauthenticatedHandler := Handler httpServerContext

abbrev AuthenticatedHandler := Handler authenticatedHTTPServerContext

/-- The server `httpRestServer`; `authenticationFunc` is `none` for a nil `AuthFunc`. -/
structure httpRestServer where
  port : Int
  middlewares : List MiddlewareFunc
  authenticationFunc : Option AuthFn

/-- The constructor `CreateHTTPServer`. -/
def CreateHTTPServer (port : Int) (authFunc : Option AuthFn) : httpRestServer :=
  { port := port, middlewares := [], authenticationFunc := authFunc }

/-- The method `AddMiddlewares`: append to the registered list. The source's comment
calls these post-authenticated middleware; `wrapMiddlewares` runs the same list on
unauthenticated routes, where no resolver runs. -/
def httpRestServer.AddMiddlewares (x : httpRestServer) (middleware : List MiddlewareFunc) :
    httpRestServer :=
  { x with middlewares := x.middlewares ++ middleware }

/-- The function `defaultAuthenticationFunction`. -/
def defaultAuthenticationFunction (_r : Request) :
    Option UserAccessCredentials × Option GoError :=
  (some CreateSystemUserCredentials, none)

/-- A call the adapter made into registered code: the middleware at a 0-based position
of the registered list, or the handler with the context it was given. -/
inductive Event (C : Type) where
  | middleware (i : Nat)
  | handler (ctx : C)
  deriving DecidableEq, Repr

/-- The loop `for i, middleware := range x.middlewares`, entered at index `i`: the calls
made, and the fault that ended the loop, if any. A returned error is raised with
`gocommon.PanicServerErrorf("middleware level %v failed: %v", i, err)`. -/
def runMiddlewares {C : Type} (r : Request) : List MiddlewareFunc → Nat →
    List (Event C) × Option Fault
  | [], _ => ([], none)
  | middleware :: rest, i =>
    match middleware r with
    | .panic f => ([.middleware i], some f)
    | .ret (some err) =>
      ([.middleware i],
        some (PanicServerErrorf
          ("middleware level " ++ toString i ++ " failed: " ++ err.Error)))
    | .ret none =>
      let next := runMiddlewares r rest (i + 1)
      (.middleware i :: next.1, next.2)

/-- The part of both adapters under the deferred `ProtectionHandler`: the middleware
loop, then `handler(ctx)`. Returns the calls made, the response writer, and the fault
that ended it, if any. -/
def runProtected {C : Type} (middlewares : List MiddlewareFunc) (r : Request)
    (handler : Handler C) (ctx : C) (w : ResponseWriter) :
    List (Event C) × ResponseWriter × Option Fault :=
  match runMiddlewares r middlewares 0 with
  | (trace, some f) => (trace, w, some f)
  | (trace, none) =>
    let done := handler ctx w
    (trace ++ [.handler ctx], done.1, done.2)

/-- One request through an adapter: the calls into middleware and handler, the response
writer at the end, the server log, the fault `ProtectionHandler` recovered, and the
fault that left the adapter, if any. -/
structure Run (C : Type) where
  trace : List (Event C)
  w : ResponseWriter
  log : List LogEntry
  recovered : Option Fault
  escaped : Option Fault

/-- The adapter returned by `wrapMiddlewares`, applied to one request. -/
def httpRestServer.wrapMiddlewares (x : httpRestServer) (handler : UnauthenticatedHandler)
    (now : Nat) (stack : String) (w : ResponseWriter) (r : Request)
    (params : List (String × String)) : Run httpServerContext :=
  let ctx := newUnauthenticatedServerContext r params now
  let body := runProtected x.middlewares r handler ctx w
  let p := ctx.ProtectionHandler stack body.2.1 body.2.2
  { trace := body.1, w := p.w, log := p.log, recovered := body.2.2, escaped := p.fault }

/-- The resolver an authenticated route calls: the configured one, or the default when
`authenticationFunc` is nil. -/
def httpRestServer.resolve (x : httpRestServer) (r : Request) :
    Outcome (Option UserAccessCredentials × Option GoError) :=
  match x.authenticationFunc with
  | some f => f r
  | none => .ret (defaultAuthenticationFunction r)

/-- The adapter returned by `authenticatedFunction`, applied to one request. A resolver
error is answered before any context exists: a `*gocommon.HTTPError` with its own
envelope, any other error with `gocommon.SendError` and a log line. `*user` of a nil
user with a nil error panics outside the protection. -/
def httpRestServer.authenticatedFunction (x : httpRestServer)
    (handler : AuthenticatedHandler) (now : Nat) (stack : String) (w : ResponseWriter)
    (r : Request) (params : List (String × String)) : Run authenticatedHTTPServerContext :=
  match x.resolve r with
  | .panic f => { trace := [], w := w, log := [], recovered := none, escaped := some f }
  | .ret (_, some (.httpErrorPtr httperror)) =>
    { trace := [], w := httperror.ToResultType.Send w, log := [], recovered := none,
      escaped := none }
  | .ret (_, some err) =>
    { trace := [], w := SendError w err, log := [.Error err.Error], recovered := none,
      escaped := none }
  | .ret (none, none) =>
    { trace := [], w := w, log := [], recovered := none,
      escaped := some nilPointerDereference }
  | .ret (some user, none) =>
    let ctx := newAuthenticatedServerContext r params user now
    let body := runProtected x.middlewares r handler ctx w
    let p := ctx.UnauthenticatedHTTPServerContext.ProtectionHandler stack body.2.1 body.2.2
    { trace := body.1, w := p.w, log := p.log, recovered := body.2.2, escaped := p.fault }

/-- The spec's wording for when `Count` is present: the payload's shape, after following
pointers, is a sequence or array whose elements are not bytes. -/
def Value.isNonByteSequence : Value → Bool
  | .slice _ elem _ => decide (elem ≠ .uint8)
  | .array _ elem _ => decide (elem ≠ .uint8)
  | _ => false

/-! ## Example requests and servers -/

/-- An empty response writer. -/
def emptyWriter : ResponseWriter := { Header := [], writes := [] }

/-- A request without body or query. -/
def plainRequest : Request := { Body := none, Query := [] }

/-- A middleware that lets every request through. -/
def passMiddleware : MiddlewareFunc := fun _ => .ret none

/-- A middleware that rejects every request with the error text `denied`. -/
def denyMiddleware : MiddlewareFunc := fun _ => .ret (some (.other "denied"))

/-- A server without resolver and with three middlewares, the second of which fails. -/
def denyingServer : httpRestServer :=
  (CreateHTTPServer 8080 none).AddMiddlewares [passMiddleware, denyMiddleware, passMiddleware]

/-- A resolver that fails with the structured error 403 `forbidden`. -/
def forbiddenResolver : AuthFn :=
  fun _ => .ret (none, some (.httpErrorPtr { Code := 403, Message := "forbidden" }))

/-- A server whose resolver fails with 403 `forbidden`. -/
def forbiddenServer : httpRestServer := CreateHTTPServer 8080 (some forbiddenResolver)

/-- A handler that answers with the empty success envelope. -/
def okHandler (C : Type) : Handler C := fun _ w => ((sendOK w).1, none)

/-! ## Theorems -/

/-- C10 (code evaluated at the failing inputs): for digits outside the signed 64-bit
range `ParseID` does not return zero but the nearest bound, `2^63 - 1` above the range
and `-2^63` below it, also when junk follows the overflowing digits; syntax failures
(non-numeric text, the empty string, a bare sign) do return zero, and a valid literal
returns its value. -/
theorem ParseID_out_of_range_not_zero :
    ParseID "9223372036854775808" = 9223372036854775807 ∧
    ParseID "-9223372036854775809" = -9223372036854775808 ∧
    ParseID "99999999999999999999x" = 9223372036854775807 ∧
    ParseID "abc" = 0 ∧ ParseID "" = 0 ∧ ParseID "-" = 0 ∧
    ParseID "-9223372036854775808" = -9223372036854775808 ∧ ParseID "+42" = 42 := by
  decide

theorem readQueryParameterAsString_eq_empty_iff (r : Request) (keys : List String) :
    readQueryParameterAsString r keys = "" ↔ ∀ key ∈ keys, r.Query.Get key = "" := by
  induction keys with
  | nil => simp [readQueryParameterAsString]
  | cons key keys ih =>
    by_cases h : r.Query.Get key = ""
    · simp [readQueryParameterAsString, h, ih]
    · simp [readQueryParameterAsString, h]

theorem readQueryParameterAsString_first (r : Request) (keys : List String) (i : Nat)
    (key : String) (hkey : keys[i]? = some key) (hne : r.Query.Get key ≠ "")
    (hbefore : ∀ (j : Nat) (k : String), j < i → keys[j]? = some k → r.Query.Get k = "") :
    readQueryParameterAsString r keys = r.Query.Get key := by
  induction keys generalizing i with
  | nil => simp at hkey
  | cons k0 keys ih =>
    cases i with
    | zero =>
      simp at hkey
      subst hkey
      simp [readQueryParameterAsString, hne]
    | succ i =>
      have h0 : r.Query.Get k0 = "" := hbefore 0 k0 (Nat.succ_pos i) (by simp)
      simp only [List.getElem?_cons_succ] at hkey
      have := ih i hkey (fun j k hj hk => hbefore (j + 1) k (Nat.succ_lt_succ hj) (by simpa using hk))
      simp [readQueryParameterAsString, h0, this]

/-- C8: `readQueryParameterAsString` returns the first value stored under the earliest
candidate key whose first value is non-empty, and returns the empty string exactly when
no candidate key has a non-empty first value. -/
theorem readQueryParameterAsString_spec (r : Request) (keys : List String) :
    (∀ (i : Nat) (key : String), keys[i]? = some key → r.Query.Get key ≠ "" →
        (∀ (j : Nat) (k : String), j < i → keys[j]? = some k → r.Query.Get k = "") →
        readQueryParameterAsString r keys = r.Query.Get key) ∧
    (readQueryParameterAsString r keys = "" ↔ ∀ key ∈ keys, r.Query.Get key = "") :=
  ⟨fun i key hkey hne hbefore => readQueryParameterAsString_first r keys i key hkey hne hbefore,
   readQueryParameterAsString_eq_empty_iff r keys⟩

/-- C8 at the spec's scenario: keys `["id", "ID"]` on the query `ID=7` give `"7"`. -/
theorem readQueryParameterAsString_spec_witness :
    readQueryParameterAsString { Body := none, Query := [("ID", ["7"])] } ["id", "ID"] = "7" :=
  (readQueryParameterAsString_spec { Body := none, Query := [("ID", ["7"])] } ["id", "ID"]).1
    1 "ID" (by decide) (by decide) (by
      intro j k hj hk
      have hj0 : j = 0 := by omega
      subst hj0
      simp at hk
      subst hk
      decide)

/-- C7 as stated fails at a byte array: for the payload `[3]byte`, whose elements are
bytes, `sendJSON` sets `Count` (to 3), because only the exact type `[]byte` is exempt. -/
theorem sendJSON_count_byte_array_counterexample :
    ¬ (((sendJSON (fun _ => true) { Header := [], writes := [] }
          (.array none .uint8 3)).2.1.Count.isSome = true) ↔
        (Value.array none .uint8 3).deref.isNonByteSequence = true) := by
  decide

theorem sendJSON_envelope (encodable : ResultType → Bool) (w : ResponseWriter) (obj : Value) :
    (sendJSON encodable w obj).2.1 =
      { StatusCode := 200, Data := some obj, Message := "",
        Count := if (obj.deref.Kind = .Array ∨ obj.deref.Kind = .Slice) ∧
                    obj.deref.isByteSlice = false then some obj.deref.Len else none,
        Result := .Success, Stack := "", String := "" } := by
  unfold sendJSON
  by_cases hk : obj.deref.Kind = .Array ∨ obj.deref.Kind = .Slice
  · cases hb : obj.deref.isByteSlice <;> simp [hk, hb]
  · simp [hk]

/-- C7, amended: the success envelope that `sendJSON` builds has `Count` present if and
only if the payload, after following pointers, is an array (of any element type) or a
slice whose type is not exactly `[]byte`; when present, `Count` is the length. A named
byte-slice type and a fixed-size byte array do get a `Count`; on slices of unnamed type
and on arrays of non-byte elements this is the spec's "sequence of non-byte elements".
The bytes written are that envelope's JSON when `json.Marshal` succeeds, and nil bytes
when it fails (the error is discarded). -/
theorem sendJSON_count_iff (encodable : ResultType → Bool) (w : ResponseWriter)
    (obj : Value) :
    (((sendJSON encodable w obj).2.1.Count.isSome = true ↔
      ((∃ d e n, obj.deref = .array d e n) ∨
       (∃ d e n, obj.deref = .slice d e n ∧ ¬ (d = none ∧ e = .uint8)))) ∧
    ((sendJSON encodable w obj).2.1.Count = none ∨
      (sendJSON encodable w obj).2.1.Count = some obj.deref.Len) ∧
    (∀ e n, obj.deref = .slice none e n →
      ((sendJSON encodable w obj).2.1.Count.isSome = obj.deref.isNonByteSequence)) ∧
    (∀ d e n, obj.deref = .array d e n → e ≠ .uint8 →
      (sendJSON encodable w obj).2.1.Count = some n)) ∧
    ((sendJSON encodable w obj).1.writes = w.writes ++ [(sendJSON encodable w obj).2.2] ∧
      (encodable (sendJSON encodable w obj).2.1 = true →
        (sendJSON encodable w obj).2.2 = .envelope (sendJSON encodable w obj).2.1) ∧
      (encodable (sendJSON encodable w obj).2.1 = false →
        (sendJSON encodable w obj).2.2 = .raw "")) := by
  refine ⟨⟨?_, ?_, ?_, ?_⟩, ?_, ?_, ?_⟩
  · rw [sendJSON_envelope]
    cases hd : obj.deref with
    | invalid => simp [Value.Kind, Value.isByteSlice]
    | scalar t => simp [Value.Kind, Value.isByteSlice]
    | ptr v => simp [Value.Kind, Value.isByteSlice]
    | array d e n => simp [Value.Kind, Value.isByteSlice]
    | slice d e n =>
      cases d <;> cases e <;> simp [Value.Kind, Value.isByteSlice] <;>
        exact ⟨_, _, ⟨rfl, rfl⟩, by simp⟩
  · rw [sendJSON_envelope]
    by_cases h : (obj.deref.Kind = .Array ∨ obj.deref.Kind = .Slice) ∧
        obj.deref.isByteSlice = false
    · right; simp [h]
    · left; simp [h]
  · intro e n hd
    rw [sendJSON_envelope, hd]
    cases e <;> simp [Value.Kind, Value.isByteSlice, Value.isNonByteSequence]
  · intro d e n hd _
    rw [sendJSON_envelope, hd]
    simp [Value.Kind, Value.isByteSlice, Value.Len]
  · simp [sendJSON, ResponseWriter.Write, ResponseWriter.SetHeader]
  · intro henc
    have : (sendJSON encodable w obj).2.2 =
        jsonMarshal encodable (sendJSON encodable w obj).2.1 := rfl
    rw [this, jsonMarshal, if_pos henc]
  · intro henc
    have : (sendJSON encodable w obj).2.2 =
        jsonMarshal encodable (sendJSON encodable w obj).2.1 := rfl
    rw [this, jsonMarshal, if_neg (by simp [henc])]

/-- C7 amended, at concrete payloads: a 3-element array of ints gives `Count == 3`. -/
theorem sendJSON_count_iff_witness :
    (sendJSON (fun _ => true) { Header := [], writes := [] }
      (.array none (.other "int") 3)).2.1.Count = some 3 :=
  (sendJSON_count_iff (fun _ => true) { Header := [], writes := [] }
    (.array none (.other "int") 3)).1.2.2.2
    none (.other "int") 3 (by decide) (by decide)

/-- C6 (code evaluated at the failing input): on a request whose body is nil,
`readProtoJSON` does not raise a bad-request fault: it has no empty-body check and
raises Go's nil-dereference run-time panic, whatever `gocommon.Panic` and the decoder
do. `readJSON` on the same request raises the bad-request "Request body is empty"
fault before decoding or validating. -/
theorem readProtoJSON_nil_body_not_bad_request {α : Type} (query : Values)
    (Panic : GoError → Fault) (readAll : String → Except GoError String)
    (unmarshal : String → Except GoError α) (decode : String → Except String α)
    (validate : Option (α → Option String)) :
    readProtoJSON { Body := none, Query := query } Panic readAll unmarshal =
      .panic nilPointerDereference ∧
    nilPointerDereference.isBadRequest = false ∧
    readJSON { Body := none, Query := query } decode validate =
      ([], .panic (PanicBadRequestf "(readJSON) Request body is empty")) ∧
    (PanicBadRequestf "(readJSON) Request body is empty").isBadRequest = true :=
  ⟨rfl, rfl, rfl, by decide⟩

/-- C5: for a fault raised as a plain string `s`, `ProtectionHandler` writes one error
envelope, with status 500 and message `s`, and returns normally. -/
theorem ProtectionHandler_string_fault (x : httpServerContext) (stack : String)
    (w : ResponseWriter) (s : String) :
    ∃ res : ResultType,
      (x.ProtectionHandler stack w (some (.str s))).w.writes = w.writes ++ [.envelope res] ∧
      res.StatusCode = 500 ∧ res.Message = s ∧ res.Result = .Error ∧
      (x.ProtectionHandler stack w (some (.str s))).fault = none :=
  ⟨(SendErrorString w s).2, by
    simp [httpServerContext.ProtectionHandler, protectionSwitch, SendErrorString,
      ResultType.Send, ResponseWriter.Write, ResponseWriter.SetHeader]⟩

/-- C1 (code evaluated at the failing inputs): for a fault that is an `error` value other
than an HTTP error, `ProtectionHandler` sends one envelope and then raises a fault of
its own, the nil dereference of `res`; for a fault of any other shape it sends nothing
and raises the same fault. Through `wrapMiddlewares`, a handler that panics with such
an error leaves the adapter with that new fault. -/
theorem ProtectionHandler_error_fault_raises (x : httpServerContext) (stack : String)
    (w : ResponseWriter) (text descr : String) (port : Int) (auth : Option AuthFn)
    (now : Nat) (r : Request) (params : List (String × String)) :
    (x.ProtectionHandler stack w (some (.error text))).fault = some nilPointerDereference ∧
    (x.ProtectionHandler stack w (some (.error text))).w.writes.length = w.writes.length + 1 ∧
    (x.ProtectionHandler stack w (some (.other descr))).fault = some nilPointerDereference ∧
    (x.ProtectionHandler stack w (some (.other descr))).w = w ∧
    ((CreateHTTPServer port auth).wrapMiddlewares (fun _ w1 => (w1, some (.error text)))
        now stack w r params).escaped = some nilPointerDereference := by
  refine ⟨rfl, ?_, rfl, rfl, rfl⟩
  simp [httpServerContext.ProtectionHandler, protectionSwitch, SendError, SendErrorString,
    ResultType.Send, ResponseWriter.Write, ResponseWriter.SetHeader]

/-- C9 (code evaluated at the failing inputs): for a fault recovered as a plain string or
as an HTTP error (by value or by pointer), the response is exactly what the helper wrote
before `res.Stack = string(debug.Stack())` runs; the stack trace only reaches the
envelope held in memory. For every recovered value, neither the response nor the log
line (the correlation prefix and `res.String`) depends on the stack trace taken: the
assignment is a dead store, and the body written does not carry that stack trace. -/
theorem ProtectionHandler_stack_not_in_response (x : httpServerContext)
    (stack other : String) (w : ResponseWriter) (s : String) (h : HTTPError)
    (e : Option Fault) :
    ((x.ProtectionHandler stack w (some (.str s))).w = (SendErrorString w s).1 ∧
      (x.ProtectionHandler stack w (some (.str s))).res =
        some { (SendErrorString w s).2 with Stack := stack }) ∧
    ((x.ProtectionHandler stack w (some (.httpError h))).w = h.ToResultType.Send w ∧
      (x.ProtectionHandler stack w (some (.httpError h))).res =
        some { h.ToResultType with Stack := stack }) ∧
    ((x.ProtectionHandler stack w (some (.httpErrorPtr h))).w = h.ToResultType.Send w ∧
      (x.ProtectionHandler stack w (some (.httpErrorPtr h))).res =
        some { h.ToResultType with Stack := stack }) ∧
    ((x.ProtectionHandler stack w e).w = (x.ProtectionHandler other w e).w ∧
      (x.ProtectionHandler stack w e).log = (x.ProtectionHandler other w e).log ∧
      (x.ProtectionHandler stack w e).fault = (x.ProtectionHandler other w e).fault) := by
  refine ⟨⟨rfl, rfl⟩, ⟨rfl, rfl⟩, ⟨rfl, rfl⟩, ?_⟩
  cases e with
  | none => exact ⟨rfl, rfl, rfl⟩
  | some f => cases f <;> exact ⟨rfl, rfl, rfl⟩

/-! ### The middleware chain -/

theorem runMiddlewares_all_pass {C : Type} (r : Request) (ms : List MiddlewareFunc) (i : Nat)
    (h : ∀ m ∈ ms, m r = .ret none) :
    runMiddlewares (C := C) r ms i = ((List.range' i ms.length).map .middleware, none) := by
  induction ms generalizing i with
  | nil => simp [runMiddlewares]
  | cons m ms ih =>
    have hm : m r = .ret none := h m (by simp)
    have hrest := ih (i + 1) (fun m' hm' => h m' (by simp [hm']))
    simp [runMiddlewares, hm, hrest, List.range'_succ]

theorem runMiddlewares_first_failure {C : Type} (r : Request) (ms : List MiddlewareFunc)
    (i k : Nat) (m : MiddlewareFunc) (err : GoError) (hk : ms[k]? = some m)
    (hm : m r = .ret (some err))
    (hbefore : ∀ (j : Nat) (m' : MiddlewareFunc), j < k → ms[j]? = some m' → m' r = .ret none) :
    runMiddlewares (C := C) r ms i =
      ((List.range' i (k + 1)).map .middleware,
        some (PanicServerErrorf
          ("middleware level " ++ toString (i + k) ++ " failed: " ++ err.Error))) := by
  induction ms generalizing i k with
  | nil => simp at hk
  | cons m0 ms ih =>
    cases k with
    | zero =>
      simp at hk
      subst hk
      simp [runMiddlewares, hm]
    | succ k =>
      have h0 : m0 r = .ret none := hbefore 0 m0 (Nat.succ_pos k) (by simp)
      simp only [List.getElem?_cons_succ] at hk
      have hrest := ih (i + 1) k hk
        (fun j m' hj hm' => hbefore (j + 1) m' (Nat.succ_lt_succ hj) (by simpa using hm'))
      have harith : i + 1 + k = i + (k + 1) := by omega
      rw [harith] at hrest
      simp [runMiddlewares, h0, hrest, List.range'_succ]

theorem runMiddlewares_no_handler {C : Type} (r : Request) (ms : List MiddlewareFunc) (i : Nat)
    (ctx : C) : Event.handler ctx ∉ (runMiddlewares (C := C) r ms i).1 := by
  induction ms generalizing i with
  | nil => simp [runMiddlewares]
  | cons m ms ih =>
    unfold runMiddlewares
    cases hm : m r with
    | panic f => simp
    | ret e =>
      cases e with
      | some err => simp
      | none => simpa using ih (i + 1)

theorem runProtected_handler_ctx {C : Type} (ms : List MiddlewareFunc) (r : Request)
    (handler : Handler C) (ctx ctx1 : C) (w : ResponseWriter)
    (h : Event.handler ctx1 ∈ (runProtected ms r handler ctx w).1) : ctx1 = ctx := by
  unfold runProtected at h
  have hno := runMiddlewares_no_handler (C := C) r ms 0 ctx1
  cases hrun : runMiddlewares (C := C) r ms 0 with
  | mk trace f =>
    rw [hrun] at h hno
    cases f with
    | some f => exact absurd h hno
    | none =>
      simp only [List.mem_append, List.mem_singleton] at h
      rcases h with h | h
      · exact absurd h hno
      · exact Event.handler.inj h

theorem runProtected_first_failure {C : Type} (ms : List MiddlewareFunc) (r : Request)
    (handler : Handler C) (ctx : C) (w : ResponseWriter) (k : Nat) (m : MiddlewareFunc)
    (err : GoError) (hk : ms[k]? = some m) (hm : m r = .ret (some err))
    (hbefore : ∀ (j : Nat) (m' : MiddlewareFunc), j < k → ms[j]? = some m' → m' r = .ret none) :
    runProtected ms r handler ctx w =
      ((List.range (k + 1)).map .middleware, w,
        some (PanicServerErrorf
          ("middleware level " ++ toString k ++ " failed: " ++ err.Error))) := by
  unfold runProtected
  rw [runMiddlewares_first_failure r ms 0 k m err hk hm hbefore]
  simp [List.range_eq_range']

theorem runProtected_all_pass {C : Type} (ms : List MiddlewareFunc) (r : Request)
    (handler : Handler C) (ctx : C) (w : ResponseWriter) (h : ∀ m ∈ ms, m r = .ret none) :
    runProtected ms r handler ctx w =
      ((List.range ms.length).map .middleware ++ [.handler ctx], (handler ctx w).1,
        (handler ctx w).2) := by
  unfold runProtected
  rw [runMiddlewares_all_pass r ms 0 h]
  simp [List.range_eq_range']

/-- C2: for every registered middleware list and every request, in `wrapMiddlewares`
and, once the resolver has returned credentials, in `authenticatedFunction`: if the
`k`-th registered middleware (1-indexed) is the first to return an error, the calls
made are exactly the middlewares `1..k` in registration order and no handler call; the
fault recovered is the status-500 server fault with the message
`middleware level (k-1) failed: <error text>`, it is answered with one status-500
envelope and does not leave the adapter. If every middleware returns nil, all are
called in registration order and then the handler, once. -/
theorem middleware_chain_short_circuits (x : httpRestServer) (r : Request)
    (w : ResponseWriter) (params : List (String × String)) (now : Nat) (stack : String)
    (uh : UnauthenticatedHandler) (ah : AuthenticatedHandler) :
    ((∀ (k : Nat) (m : MiddlewareFunc) (err : GoError), 1 ≤ k →
        x.middlewares[k - 1]? = some m → m r = .ret (some err) →
        (∀ (j : Nat) (m' : MiddlewareFunc), j < k - 1 → x.middlewares[j]? = some m' →
          m' r = .ret none) →
        ((x.wrapMiddlewares uh now stack w r params).trace =
            (List.range k).map .middleware ∧
          (x.wrapMiddlewares uh now stack w r params).recovered =
            some (.httpError
              { Code := 500,
                Message := "middleware level " ++ toString (k - 1) ++ " failed: " ++ err.Error }) ∧
          (x.wrapMiddlewares uh now stack w r params).w.writes =
            w.writes ++ [.envelope
              { StatusCode := 500, Data := none,
                Message := "middleware level " ++ toString (k - 1) ++ " failed: " ++ err.Error,
                Count := none, Result := .Error, Stack := "",
                String := "middleware level " ++ toString (k - 1) ++ " failed: " ++ err.Error }] ∧
          (x.wrapMiddlewares uh now stack w r params).escaped = none)) ∧
      ((∀ m ∈ x.middlewares, m r = .ret none) →
        (x.wrapMiddlewares uh now stack w r params).trace =
          (List.range x.middlewares.length).map .middleware ++
            [.handler (newUnauthenticatedServerContext r params now)])) ∧
    (∀ user : UserAccessCredentials, x.resolve r = .ret (some user, none) →
      (∀ (k : Nat) (m : MiddlewareFunc) (err : GoError), 1 ≤ k →
        x.middlewares[k - 1]? = some m → m r = .ret (some err) →
        (∀ (j : Nat) (m' : MiddlewareFunc), j < k - 1 → x.middlewares[j]? = some m' →
          m' r = .ret none) →
        ((x.authenticatedFunction ah now stack w r params).trace =
            (List.range k).map .middleware ∧
          (x.authenticatedFunction ah now stack w r params).recovered =
            some (.httpError
              { Code := 500,
                Message := "middleware level " ++ toString (k - 1) ++ " failed: " ++ err.Error }) ∧
          (x.authenticatedFunction ah now stack w r params).w.writes =
            w.writes ++ [.envelope
              { StatusCode := 500, Data := none,
                Message := "middleware level " ++ toString (k - 1) ++ " failed: " ++ err.Error,
                Count := none, Result := .Error, Stack := "",
                String := "middleware level " ++ toString (k - 1) ++ " failed: " ++ err.Error }] ∧
          (x.authenticatedFunction ah now stack w r params).escaped = none)) ∧
      ((∀ m ∈ x.middlewares, m r = .ret none) →
        (x.authenticatedFunction ah now stack w r params).trace =
          (List.range x.middlewares.length).map .middleware ++
            [.handler (newAuthenticatedServerContext r params user now)])) := by
  refine ⟨⟨?_, ?_⟩, ?_⟩
  · intro k m err hk1 hk hm hbefore
    obtain ⟨k0, rfl⟩ : ∃ k0, k = k0 + 1 := ⟨k - 1, by omega⟩
    simp only [Nat.add_sub_cancel] at hk hbefore ⊢
    have hu := runProtected_first_failure x.middlewares r uh
      (newUnauthenticatedServerContext r params now) w k0 m err hk hm hbefore
    simp [httpRestServer.wrapMiddlewares, hu, httpServerContext.ProtectionHandler,
      protectionSwitch, PanicServerErrorf, HTTPError.ToResultType, ResultType.Send,
      ResponseWriter.Write, ResponseWriter.SetHeader]
  · intro hall
    have hu := runProtected_all_pass x.middlewares r uh
      (newUnauthenticatedServerContext r params now) w hall
    simp [httpRestServer.wrapMiddlewares, hu]
  · intro user hresolve
    constructor
    · intro k m err hk1 hk hm hbefore
      obtain ⟨k0, rfl⟩ : ∃ k0, k = k0 + 1 := ⟨k - 1, by omega⟩
      simp only [Nat.add_sub_cancel] at hk hbefore ⊢
      have ha := runProtected_first_failure x.middlewares r ah
        (newAuthenticatedServerContext r params user now) w k0 m err hk hm hbefore
      simp [httpRestServer.authenticatedFunction, hresolve, ha,
        httpServerContext.ProtectionHandler, protectionSwitch, PanicServerErrorf,
        HTTPError.ToResultType, ResultType.Send, ResponseWriter.Write,
        ResponseWriter.SetHeader]
    · intro hall
      have ha := runProtected_all_pass x.middlewares r ah
        (newAuthenticatedServerContext r params user now) w hall
      simp [httpRestServer.authenticatedFunction, hresolve, ha]

/-- C2 at a concrete server: three middlewares of which the second fails, on both kinds
of route; the calls are the first two middlewares and the fault names level 1. -/
theorem middleware_chain_short_circuits_witness :
    ((denyingServer.wrapMiddlewares (okHandler _) 0 "" emptyWriter plainRequest []).trace =
        (List.range 2).map .middleware ∧
      (denyingServer.wrapMiddlewares (okHandler _) 0 "" emptyWriter plainRequest []).recovered =
        some (.httpError
          { Code := 500,
            Message := "middleware level " ++ toString (2 - 1) ++ " failed: " ++
              (GoError.other "denied").Error }) ∧
      (denyingServer.wrapMiddlewares (okHandler _) 0 "" emptyWriter plainRequest []).w.writes =
        emptyWriter.writes ++ [.envelope
          { StatusCode := 500, Data := none,
            Message := "middleware level " ++ toString (2 - 1) ++ " failed: " ++
              (GoError.other "denied").Error,
            Count := none, Result := .Error, Stack := "",
            String := "middleware level " ++ toString (2 - 1) ++ " failed: " ++
              (GoError.other "denied").Error }] ∧
      (denyingServer.wrapMiddlewares (okHandler _) 0 "" emptyWriter plainRequest []).escaped = none) ∧
    ((denyingServer.authenticatedFunction (okHandler _) 0 "" emptyWriter plainRequest []).trace =
        (List.range 2).map .middleware ∧
      (denyingServer.authenticatedFunction (okHandler _) 0 "" emptyWriter plainRequest []).recovered =
        some (.httpError
          { Code := 500,
            Message := "middleware level " ++ toString (2 - 1) ++ " failed: " ++
              (GoError.other "denied").Error }) ∧
      (denyingServer.authenticatedFunction (okHandler _) 0 "" emptyWriter plainRequest []).w.writes =
        emptyWriter.writes ++ [.envelope
          { StatusCode := 500, Data := none,
            Message := "middleware level " ++ toString (2 - 1) ++ " failed: " ++
              (GoError.other "denied").Error,
            Count := none, Result := .Error, Stack := "",
            String := "middleware level " ++ toString (2 - 1) ++ " failed: " ++
              (GoError.other "denied").Error }] ∧
      (denyingServer.authenticatedFunction (okHandler _) 0 "" emptyWriter plainRequest []).escaped = none) :=
  have hfirst : ∀ (j : Nat) (m' : MiddlewareFunc), j < 2 - 1 →
      denyingServer.middlewares[j]? = some m' → m' plainRequest = .ret none := by
    intro j m' hj hm'
    have hj0 : j = 0 := by omega
    subst hj0
    have hp : m' = passMiddleware := by
      simpa [denyingServer, CreateHTTPServer, httpRestServer.AddMiddlewares] using hm'.symm
    subst hp
    rfl
  ⟨(middleware_chain_short_circuits denyingServer plainRequest emptyWriter [] 0 ""
      (okHandler _) (okHandler _)).1.1
      2 denyMiddleware (.other "denied") (by decide) rfl rfl hfirst,
   ((middleware_chain_short_circuits denyingServer plainRequest emptyWriter [] 0 ""
      (okHandler _) (okHandler _)).2 CreateSystemUserCredentials rfl).1
      2 denyMiddleware (.other "denied") (by decide) rfl rfl hfirst⟩

theorem authenticatedFunction_handler_ctx (x : httpRestServer) (handler : AuthenticatedHandler)
    (now : Nat) (stack : String) (w : ResponseWriter) (r : Request)
    (params : List (String × String)) (user : UserAccessCredentials)
    (hresolve : x.resolve r = .ret (some user, none)) (ctx : authenticatedHTTPServerContext)
    (h : Event.handler ctx ∈ (x.authenticatedFunction handler now stack w r params).trace) :
    ctx = newAuthenticatedServerContext r params user now := by
  simp only [httpRestServer.authenticatedFunction, hresolve] at h
  exact runProtected_handler_ctx _ _ _ _ _ _ h

/-- C4: on a server with no resolver (`authenticationFunc` nil), resolution of every
request succeeds with the system credentials; every context handed to the handler by
`authenticatedFunction` is built from them, so `GetUsername()` is `SYSTEM_USERNAME`,
`GetUserID()` is `SYSTEM_USER_ID`, which is 0, and `IsSystemUser()` is true; and when
every middleware lets the request through the handler is called with that context. -/
theorem authenticatedFunction_default_resolver (x : httpRestServer)
    (hnil : x.authenticationFunc = none) (handler : AuthenticatedHandler) (now : Nat)
    (stack : String) (w : ResponseWriter) (r : Request) (params : List (String × String)) :
    x.resolve r = .ret (some CreateSystemUserCredentials, none) ∧
    SYSTEM_USER_ID = 0 ∧
    (∀ ctx : authenticatedHTTPServerContext,
      Event.handler ctx ∈ (x.authenticatedFunction handler now stack w r params).trace →
        ctx.UserCredentials = CreateSystemUserCredentials ∧
        ctx.GetUsername = SYSTEM_USERNAME ∧ ctx.GetUserID = SYSTEM_USER_ID ∧
        ctx.IsSystemUser = true) ∧
    ((∀ m ∈ x.middlewares, m r = .ret none) →
      Event.handler (newAuthenticatedServerContext r params CreateSystemUserCredentials now) ∈
        (x.authenticatedFunction handler now stack w r params).trace) := by
  have hresolve : x.resolve r = .ret (some CreateSystemUserCredentials, none) := by
    simp [httpRestServer.resolve, hnil, defaultAuthenticationFunction]
  refine ⟨hresolve, rfl, ?_, ?_⟩
  · intro ctx hctx
    have := authenticatedFunction_handler_ctx x handler now stack w r params _ hresolve ctx hctx
    subst this
    refine ⟨rfl, rfl, rfl, ?_⟩
    show CreateSystemUserCredentials.IsSystemUser = true
    decide
  · intro hall
    have ha := runProtected_all_pass x.middlewares r handler
      (newAuthenticatedServerContext r params CreateSystemUserCredentials now) w hall
    simp [httpRestServer.authenticatedFunction, hresolve, ha]

/-- C4 at a concrete server created without resolver and without middleware: the
handler is called with the system user's context. -/
theorem authenticatedFunction_default_resolver_witness :
    Event.handler (newAuthenticatedServerContext plainRequest [] CreateSystemUserCredentials 0) ∈
      ((CreateHTTPServer 8080 none).authenticatedFunction (okHandler _) 0 "" emptyWriter
        plainRequest []).trace :=
  (authenticatedFunction_default_resolver (CreateHTTPServer 8080 none) rfl (okHandler _) 0 ""
    emptyWriter plainRequest []).2.2.2 (by simp [CreateHTTPServer])

/-- C3: when the resolver of an authenticated route returns an error, no middleware and
no handler is called, no fault is recovered or raised, and exactly one error envelope
is written: for a structured HTTP error it carries that error's status code and
message, for any other error it is the generic status-500 envelope. -/
theorem authenticatedFunction_resolver_error (x : httpRestServer)
    (handler : AuthenticatedHandler) (now : Nat) (stack : String) (w : ResponseWriter)
    (r : Request) (params : List (String × String)) (user : Option UserAccessCredentials)
    (err : GoError) (hresolve : x.resolve r = .ret (user, some err)) :
    (x.authenticatedFunction handler now stack w r params).trace = [] ∧
    (x.authenticatedFunction handler now stack w r params).recovered = none ∧
    (x.authenticatedFunction handler now stack w r params).escaped = none ∧
    ∃ res : ResultType,
      (x.authenticatedFunction handler now stack w r params).w.writes =
        w.writes ++ [.envelope res] ∧
      res.Result = .Error ∧
      (∀ e : HTTPError, err = .httpErrorPtr e →
        res.StatusCode = e.Code ∧ res.Message = e.Message) ∧
      ((∀ e : HTTPError, err ≠ .httpErrorPtr e) → res.StatusCode = 500) := by
  cases err with
  | httpErrorPtr e =>
    refine ⟨?_, ?_, ?_, e.ToResultType, ?_, rfl, ?_, ?_⟩
    · simp [httpRestServer.authenticatedFunction, hresolve]
    · simp [httpRestServer.authenticatedFunction, hresolve]
    · simp [httpRestServer.authenticatedFunction, hresolve]
    · simp [httpRestServer.authenticatedFunction, hresolve, ResultType.Send,
        ResponseWriter.Write, ResponseWriter.SetHeader]
    · intro e1 he
      cases he
      exact ⟨rfl, rfl⟩
    · intro hne
      exact absurd rfl (hne e)
  | other text =>
    refine ⟨?_, ?_, ?_, (SendErrorString w text).2, ?_, rfl, ?_, ?_⟩
    · simp [httpRestServer.authenticatedFunction, hresolve]
    · simp [httpRestServer.authenticatedFunction, hresolve]
    · simp [httpRestServer.authenticatedFunction, hresolve]
    · simp [httpRestServer.authenticatedFunction, hresolve, SendError, SendErrorString,
        GoError.Error, ResultType.Send, ResponseWriter.Write, ResponseWriter.SetHeader]
    · intro e1 he
      cases he
    · intro _
      rfl

/-- C3 at the spec's scenario: a resolver failing with 403 `forbidden`; nothing is
called and the one envelope written has status 403 and message `forbidden`. -/
theorem authenticatedFunction_resolver_error_witness :
    (forbiddenServer.authenticatedFunction (okHandler _) 0 "" emptyWriter plainRequest []).trace = [] ∧
    (forbiddenServer.authenticatedFunction (okHandler _) 0 "" emptyWriter plainRequest []).recovered = none ∧
    (forbiddenServer.authenticatedFunction (okHandler _) 0 "" emptyWriter plainRequest []).escaped = none ∧
    ∃ res : ResultType,
      (forbiddenServer.authenticatedFunction (okHandler _) 0 "" emptyWriter plainRequest []).w.writes =
        emptyWriter.writes ++ [.envelope res] ∧
      res.Result = .Error ∧
      (∀ e : HTTPError, GoError.httpErrorPtr { Code := 403, Message := "forbidden" } = .httpErrorPtr e →
        res.StatusCode = e.Code ∧ res.Message = e.Message) ∧
      ((∀ e : HTTPError, GoError.httpErrorPtr { Code := 403, Message := "forbidden" } ≠ .httpErrorPtr e) →
        res.StatusCode = 500) :=
  authenticatedFunction_resolver_error forbiddenServer (okHandler _) 0 "" emptyWriter
    plainRequest [] none (.httpErrorPtr { Code := 403, Message := "forbidden" }) rfl

end Restutilsgo
